import Mathlib

/-!
Verification development for the timezone-converter extension core
(`src/timezone-data.ts` and `src/timezone-utils.ts`).

Strings are modelled as Lean `String`s; all string processing is done on
the underlying `List Char` with structural recursions so that every
definition evaluates by kernel reduction.  The inputs exercised by the
specification are ASCII, so the ASCII case conversions of `Char.toLower`
and `Char.toUpper` coincide with the JavaScript `toLowerCase`/`toUpperCase`
on every relevant string.
-/

-- ── String helpers (JS string primitives used by the source) ──────────

/-- JS whitespace as used by `trim` on the inputs in scope (ASCII). -/
def isSpaceC (c : Char) : Bool :=
  c == ' ' || c == '\t' || c == '\n' || c == '\r'

/-- `String.prototype.trim`: drop leading and trailing whitespace. -/
def trimList (l : List Char) : List Char :=
  ((l.dropWhile isSpaceC).reverse.dropWhile isSpaceC).reverse

/-- `trim` lifted to `String`. -/
def trimS (s : String) : String := ⟨trimList s.data⟩

/-- `toLowerCase` (ASCII). -/
def lowerS (s : String) : String := ⟨s.data.map Char.toLower⟩

/-- Split a character list at every occurrence of `sep`
(JS `String.prototype.split` with a one-character separator). -/
def splitOnChar (sep : Char) : List Char → List (List Char)
  | [] => [[]]
  | c :: cs =>
    let r := splitOnChar sep cs
    if c == sep then [] :: r
    else
      match r with
      | [] => [[c]]
      | h :: t => (c :: h) :: t

/-- Join character lists with a one-character separator (JS `Array.prototype.join`). -/
def joinWith (sep : Char) : List (List Char) → List Char
  | [] => []
  | [x] => x
  | x :: xs => x ++ sep :: joinWith sep xs

/-- `w.charAt(0).toUpperCase() + w.slice(1).toLowerCase()` on one word. -/
def titleWord : List Char → List Char
  | [] => []
  | c :: cs => Char.toUpper c :: cs.map Char.toLower

/-- The "common casing" guess of `resolveTimezone`: title-case each
underscore-delimited word inside each slash-delimited segment. -/
def titleGuess (l : List Char) : List Char :=
  joinWith '/'
    ((splitOnChar '/' l).map fun seg =>
      joinWith '_' ((splitOnChar '_' seg).map titleWord))

/-- `titleGuess` lifted to `String`. -/
def titleGuessS (s : String) : String := ⟨titleGuess s.data⟩

/-- `parseInt(-, 10)` on a string of decimal digits. -/
def digitsToNat (l : List Char) : Nat :=
  l.foldl (fun n c => 10 * n + (c.toNat - 48)) 0

/-- The decimal digit character for `d < 10`. -/
def digitChar (d : Nat) : Char := Char.ofNat (48 + d)

/-- Decimal rendering of `n < 100` without padding. -/
def natToStr2 (n : Nat) : String :=
  if n < 10 then ⟨[digitChar n]⟩ else ⟨[digitChar (n / 10), digitChar (n % 10)]⟩

/-- Two-digit zero-padded rendering of `n < 100`
(`String(n).padStart(2, "0")`). -/
def pad2 (n : Nat) : String := ⟨[digitChar (n / 10), digitChar (n % 10)]⟩

-- ── Static lookup tables (`src/timezone-data.ts`) ─────────────────────

/-- `ABBREVIATION_MAP`: lowercase abbreviation to the ordered list of
IANA identifiers (ambiguous ones map to several). -/
def ABBREVIATION_MAP : List (String × List String) := [
  ("utc", ["UTC"]),
  ("gmt", ["Etc/GMT"]),
  ("est", ["America/New_York"]),
  ("edt", ["America/New_York"]),
  ("cst", ["America/Chicago", "Asia/Shanghai"]),
  ("cdt", ["America/Chicago"]),
  ("mst", ["America/Denver"]),
  ("mdt", ["America/Denver"]),
  ("pst", ["America/Los_Angeles"]),
  ("pdt", ["America/Los_Angeles"]),
  ("akst", ["America/Anchorage"]),
  ("akdt", ["America/Anchorage"]),
  ("hst", ["Pacific/Honolulu"]),
  ("ast", ["America/Halifax", "Asia/Riyadh"]),
  ("nst", ["America/St_Johns"]),
  ("ndt", ["America/St_Johns"]),
  ("cet", ["Europe/Berlin"]),
  ("cest", ["Europe/Berlin"]),
  ("eet", ["Europe/Bucharest"]),
  ("eest", ["Europe/Bucharest"]),
  ("wet", ["Europe/Lisbon"]),
  ("west", ["Europe/Lisbon"]),
  ("gmt_plus_1", ["Europe/London"]),
  ("bst", ["Europe/London", "Asia/Dhaka"]),
  ("ist", ["Asia/Kolkata", "Asia/Jerusalem", "Europe/Dublin"]),
  ("msk", ["Europe/Moscow"]),
  ("jst", ["Asia/Tokyo"]),
  ("kst", ["Asia/Seoul"]),
  ("cst_china", ["Asia/Shanghai"]),
  ("hkt", ["Asia/Hong_Kong"]),
  ("sgt", ["Asia/Singapore"]),
  ("myt", ["Asia/Kuala_Lumpur"]),
  ("pht", ["Asia/Manila"]),
  ("wib", ["Asia/Jakarta"]),
  ("wit", ["Asia/Jayapura"]),
  ("wita", ["Asia/Makassar"]),
  ("ict", ["Asia/Bangkok"]),
  ("mmt", ["Asia/Yangon"]),
  ("npt", ["Asia/Kathmandu"]),
  ("pkt", ["Asia/Karachi"]),
  ("aft", ["Asia/Kabul"]),
  ("irst", ["Asia/Tehran"]),
  ("gst", ["Asia/Dubai"]),
  ("aqtt", ["Asia/Aqtau"]),
  ("aest", ["Australia/Sydney"]),
  ("aedt", ["Australia/Sydney"]),
  ("acst", ["Australia/Adelaide"]),
  ("acdt", ["Australia/Adelaide"]),
  ("awst", ["Australia/Perth"]),
  ("nzst", ["Pacific/Auckland"]),
  ("nzdt", ["Pacific/Auckland"]),
  ("fjt", ["Pacific/Fiji"]),
  ("brt", ["America/Sao_Paulo"]),
  ("brst", ["America/Sao_Paulo"]),
  ("art", ["America/Argentina/Buenos_Aires"]),
  ("clt", ["America/Santiago"]),
  ("clst", ["America/Santiago"]),
  ("pet", ["America/Lima"]),
  ("cot", ["America/Bogota"]),
  ("vet", ["America/Caracas"]),
  ("cat", ["Africa/Harare"]),
  ("eat", ["Africa/Nairobi"]),
  ("wat", ["Africa/Lagos"]),
  ("sast", ["Africa/Johannesburg"])]

/-- `CITY_MAP`: lowercase city or region name to one IANA identifier. -/
def CITY_MAP : List (String × String) := [
  ("new york", "America/New_York"),
  ("chicago", "America/Chicago"),
  ("denver", "America/Denver"),
  ("los angeles", "America/Los_Angeles"),
  ("phoenix", "America/Phoenix"),
  ("anchorage", "America/Anchorage"),
  ("honolulu", "Pacific/Honolulu"),
  ("toronto", "America/Toronto"),
  ("vancouver", "America/Vancouver"),
  ("montreal", "America/Toronto"),
  ("halifax", "America/Halifax"),
  ("st johns", "America/St_Johns"),
  ("mexico city", "America/Mexico_City"),
  ("london", "Europe/London"),
  ("paris", "Europe/Paris"),
  ("berlin", "Europe/Berlin"),
  ("amsterdam", "Europe/Amsterdam"),
  ("brussels", "Europe/Brussels"),
  ("madrid", "Europe/Madrid"),
  ("rome", "Europe/Rome"),
  ("zurich", "Europe/Zurich"),
  ("vienna", "Europe/Vienna"),
  ("prague", "Europe/Prague"),
  ("warsaw", "Europe/Warsaw"),
  ("budapest", "Europe/Budapest"),
  ("bucharest", "Europe/Bucharest"),
  ("athens", "Europe/Athens"),
  ("istanbul", "Europe/Istanbul"),
  ("moscow", "Europe/Moscow"),
  ("helsinki", "Europe/Helsinki"),
  ("stockholm", "Europe/Stockholm"),
  ("oslo", "Europe/Oslo"),
  ("copenhagen", "Europe/Copenhagen"),
  ("dublin", "Europe/Dublin"),
  ("lisbon", "Europe/Lisbon"),
  ("kyiv", "Europe/Kyiv"),
  ("tokyo", "Asia/Tokyo"),
  ("osaka", "Asia/Tokyo"),
  ("seoul", "Asia/Seoul"),
  ("beijing", "Asia/Shanghai"),
  ("shanghai", "Asia/Shanghai"),
  ("hong kong", "Asia/Hong_Kong"),
  ("taipei", "Asia/Taipei"),
  ("singapore", "Asia/Singapore"),
  ("kuala lumpur", "Asia/Kuala_Lumpur"),
  ("bangkok", "Asia/Bangkok"),
  ("jakarta", "Asia/Jakarta"),
  ("manila", "Asia/Manila"),
  ("delhi", "Asia/Kolkata"),
  ("mumbai", "Asia/Kolkata"),
  ("kolkata", "Asia/Kolkata"),
  ("chennai", "Asia/Kolkata"),
  ("bangalore", "Asia/Kolkata"),
  ("karachi", "Asia/Karachi"),
  ("lahore", "Asia/Karachi"),
  ("dhaka", "Asia/Dhaka"),
  ("kathmandu", "Asia/Kathmandu"),
  ("yangon", "Asia/Yangon"),
  ("tehran", "Asia/Tehran"),
  ("dubai", "Asia/Dubai"),
  ("abu dhabi", "Asia/Dubai"),
  ("riyadh", "Asia/Riyadh"),
  ("doha", "Asia/Qatar"),
  ("jerusalem", "Asia/Jerusalem"),
  ("tel aviv", "Asia/Jerusalem"),
  ("kabul", "Asia/Kabul"),
  ("colombo", "Asia/Colombo"),
  ("sydney", "Australia/Sydney"),
  ("melbourne", "Australia/Melbourne"),
  ("brisbane", "Australia/Brisbane"),
  ("perth", "Australia/Perth"),
  ("adelaide", "Australia/Adelaide"),
  ("auckland", "Pacific/Auckland"),
  ("wellington", "Pacific/Auckland"),
  ("fiji", "Pacific/Fiji"),
  ("sao paulo", "America/Sao_Paulo"),
  ("rio de janeiro", "America/Sao_Paulo"),
  ("buenos aires", "America/Argentina/Buenos_Aires"),
  ("santiago", "America/Santiago"),
  ("lima", "America/Lima"),
  ("bogota", "America/Bogota"),
  ("caracas", "America/Caracas"),
  ("cairo", "Africa/Cairo"),
  ("lagos", "Africa/Lagos"),
  ("nairobi", "Africa/Nairobi"),
  ("johannesburg", "Africa/Johannesburg"),
  ("cape town", "Africa/Johannesburg"),
  ("casablanca", "Africa/Casablanca"),
  ("accra", "Africa/Accra"),
  ("addis ababa", "Africa/Addis_Ababa")]

/-- `SHORT_FORM_MAP`: common short-form alias to one IANA identifier. -/
def SHORT_FORM_MAP : List (String × String) := [
  ("ny", "America/New_York"),
  ("nyc", "America/New_York"),
  ("la", "America/Los_Angeles"),
  ("sf", "America/Los_Angeles"),
  ("chi", "America/Chicago"),
  ("kl", "Asia/Kuala_Lumpur"),
  ("hk", "Asia/Hong_Kong"),
  ("sg", "Asia/Singapore")]

/-- `TIMEZONE_FULL_NAMES`: full names for disambiguation. -/
def TIMEZONE_FULL_NAMES : List (String × String) := [
  ("America/New_York", "Eastern Time"),
  ("America/Chicago", "Central Time"),
  ("America/Denver", "Mountain Time"),
  ("America/Los_Angeles", "Pacific Time"),
  ("Asia/Shanghai", "China Standard Time"),
  ("Asia/Kolkata", "India Standard Time"),
  ("Asia/Jerusalem", "Israel Standard Time"),
  ("Europe/Dublin", "Irish Standard Time"),
  ("Europe/London", "British Summer Time"),
  ("Asia/Dhaka", "Bangladesh Standard Time"),
  ("America/Halifax", "Atlantic Time"),
  ("Asia/Riyadh", "Arabia Standard Time")]

/-- Object-property access on an association table. -/
def tblLookup (tbl : List (String × String)) (k : String) : Option String :=
  (tbl.find? fun p => p.1 == k).map Prod.snd

/-- Property access on the abbreviation table. -/
def abbrevLookup (k : String) : Option (List String) :=
  (ABBREVIATION_MAP.find? fun p => p.1 == k).map Prod.snd

/-- Modelled from the spec: the host capability `isValidZoneId`
(`isValidIana` in the source delegates it to the runtime's
`Intl.DateTimeFormat`, which is not part of this repository).  The spec
defines a canonical zone identifier as a hierarchical "Region/City"
string recognized by the host's timezone database and guarantees that
every identifier listed in the static tables is independently valid, so
the model recognizes exactly the identifiers the tables can produce. -/
def VALID_IANA_IDS : List String := [
  "UTC", "Etc/GMT",
  "America/New_York", "America/Chicago", "America/Denver",
  "America/Los_Angeles", "America/Phoenix", "America/Anchorage",
  "America/Toronto", "America/Vancouver", "America/Halifax",
  "America/St_Johns", "America/Mexico_City", "Pacific/Honolulu",
  "Europe/Berlin", "Europe/Bucharest", "Europe/Lisbon", "Europe/London",
  "Europe/Paris", "Europe/Amsterdam", "Europe/Brussels", "Europe/Madrid",
  "Europe/Rome", "Europe/Zurich", "Europe/Vienna", "Europe/Prague",
  "Europe/Warsaw", "Europe/Budapest", "Europe/Athens", "Europe/Istanbul",
  "Europe/Moscow", "Europe/Helsinki", "Europe/Stockholm", "Europe/Oslo",
  "Europe/Copenhagen", "Europe/Dublin", "Europe/Kyiv",
  "Asia/Shanghai", "Asia/Tokyo", "Asia/Seoul", "Asia/Hong_Kong",
  "Asia/Taipei", "Asia/Singapore", "Asia/Kuala_Lumpur", "Asia/Bangkok",
  "Asia/Jakarta", "Asia/Jayapura", "Asia/Makassar", "Asia/Manila",
  "Asia/Kolkata", "Asia/Karachi", "Asia/Dhaka", "Asia/Kathmandu",
  "Asia/Yangon", "Asia/Tehran", "Asia/Dubai", "Asia/Riyadh", "Asia/Qatar",
  "Asia/Jerusalem", "Asia/Kabul", "Asia/Colombo", "Asia/Aqtau",
  "Australia/Sydney", "Australia/Melbourne", "Australia/Brisbane",
  "Australia/Perth", "Australia/Adelaide", "Pacific/Auckland",
  "Pacific/Fiji", "America/Sao_Paulo", "America/Argentina/Buenos_Aires",
  "America/Santiago", "America/Lima", "America/Bogota", "America/Caracas",
  "Africa/Cairo", "Africa/Harare", "Africa/Nairobi", "Africa/Lagos",
  "Africa/Johannesburg", "Africa/Casablanca", "Africa/Accra",
  "Africa/Addis_Ababa"]

/-- `isValidIana`, over the modelled host validator. -/
def isValidIana (tz : String) : Bool := VALID_IANA_IDS.contains tz

-- ── Zone resolution (`resolveTimezone`, `getDisambiguationLabel`) ─────

/-- `resolveTimezone`: resolve a user input string to zero or more IANA
timezone identifiers, mirroring the source's precedence order. -/
def resolveTimezone (input : String) : List String :=
  let trimmed := trimS input
  if trimmed = "" then []
  else if isValidIana trimmed then [trimmed]
  else
    let ianaGuess := titleGuessS trimmed
    if ianaGuess != trimmed && isValidIana ianaGuess then [ianaGuess]
    else
      let lower := lowerS trimmed
      match tblLookup SHORT_FORM_MAP lower with
      | some z => [z]
      | none =>
        match abbrevLookup lower with
        | some zs => zs
        | none =>
          match tblLookup CITY_MAP lower with
          | some z => [z]
          | none => []

/-- `getDisambiguationLabel`: a display name for a zone reached through
an ambiguous abbreviation (JS `||` also falls back on an empty string). -/
def getDisambiguationLabel (ianaId sourceLabel : String) : Option String :=
  let lower := lowerS sourceLabel
  match abbrevLookup lower with
  | none => none
  | some ms =>
    if ms.length ≤ 1 then none
    else
      let fn := (tblLookup TIMEZONE_FULL_NAMES ianaId).getD ""
      some (if fn = "" then ianaId else fn)

-- ── Query parsing (`parseQuery`, TIME_RE, TO_RE) ──────────────────────

/-- The meridiem group of the time pattern. -/
inductive Meridiem where
  | am
  | pm
deriving DecidableEq, Repr

/-- The result of matching the anchored time pattern
`(\d\x7b1,2\x7d)(?:[:.](\d\x7b2\x7d))?\s*(am|pm)?` (case-insensitive):
the consumed prefix (match[0]), the hour digits (group 1), the optional
minute digits (group 2) and the optional meridiem (group 3). -/
structure TimeMatch where
  consumed : List Char
  hoursStr : List Char
  minutesStr : Option (List Char)
  meridiem : Option Meridiem
deriving DecidableEq, Repr

/-- Deterministic matcher for `TIME_RE`.  The pattern fails only when the
first character is not a digit: the hour group takes two digits when
available (greedily) and every later part is optional, so no backtracking
into the hour group can occur.  The minute group requires the separator
to be followed by exactly two digits, otherwise the whole optional group
matches empty without consuming the separator. -/
def matchTime : List Char → Option TimeMatch
  | [] => none
  | c :: cs =>
    if c.isDigit then
      let p1 : List Char × List Char :=
        match cs with
        | d :: rest => if d.isDigit then ([c, d], rest) else ([c], cs)
        | [] => ([c], [])
      let g1 := p1.1
      let p2 : List Char × Option (List Char) × List Char :=
        match p1.2 with
        | s :: d1 :: d2 :: rest =>
          if (s == ':' || s == '.') && d1.isDigit && d2.isDigit then
            ([s, d1, d2], some [d1, d2], rest)
          else ([], none, p1.2)
        | _ => ([], none, p1.2)
      let ws := p2.2.2.takeWhile isSpaceC
      let r3 := p2.2.2.dropWhile isSpaceC
      let p3 : List Char × Option Meridiem :=
        match r3 with
        | a :: b :: _ =>
          if a.toLower == 'a' && b.toLower == 'm' then ([a, b], some Meridiem.am)
          else if a.toLower == 'p' && b.toLower == 'm' then ([a, b], some Meridiem.pm)
          else ([], none)
        | [_] => ([], none)
        | [] => ([], none)
      some { consumed := g1 ++ p2.1 ++ ws ++ p3.1
             hoursStr := g1
             minutesStr := p2.2.1
             meridiem := p3.2 }
    else none

/-- JS word character (`\w`). -/
def isWordChar (c : Char) : Bool := c.isAlphanum || c == '_'

/-- Scan for the first word-boundary-delimited, case-insensitive
occurrence of "to" (`TO_RE`); `prev` is the character before position `i`. -/
def findToAux (prev : Option Char) (i : Nat) : List Char → Option Nat
  | a :: b :: rest =>
    if a.toLower == 't' && b.toLower == 'o'
        && (match prev with | none => true | some p => !isWordChar p)
        && (match rest with | [] => true | c :: _ => !isWordChar c) then
      some i
    else findToAux (some a) (i + 1) (b :: rest)
  | _ => none

/-- Index of the first match of `TO_RE` in a string, if any. -/
def findTo (l : List Char) : Option Nat := findToAux none 0 l

/-- The minute value extracted from a time match: the parsed minute
digits when the minute group matched, otherwise 0. -/
def minutesOfMatch (tm : TimeMatch) : Nat :=
  match tm.minutesStr with
  | some ds => digitsToNat ds
  | none => 0

/-- `ParsedQuery` as produced by `parseQuery`. -/
structure ParsedQuery where
  timeStr : String
  hours : Nat
  minutes : Nat
  sourceTimezone : String
  sourceLabel : String
  targetTimezone : Option String := none
  error : Option String := none
deriving DecidableEq, Repr

/-- The tail of `parseQuery` after the hour-range checks: the minute-range
check, the "to" split, and source/target resolution.  `trimmedData` is the
trimmed query, `tm` the time match, `hours` the already 12h-adjusted hour. -/
def parseQueryRest (trimmedData : List Char) (tm : TimeMatch) (hours minutes : Nat) : ParsedQuery :=
  if 59 < minutes then
    { timeStr := ⟨tm.consumed⟩, hours, minutes, sourceTimezone := "", sourceLabel := "",
      error := some "Invalid time: minutes must be 0-59" }
  else
    let timeStr : String := ⟨trimList tm.consumed⟩
    let restData := trimList (trimmedData.drop tm.consumed.length)
    let parts : List Char × Option (List Char) :=
      match findTo restData with
      | some i => (trimList (restData.take i), some (trimList (restData.drop (i + 2))))
      | none => (restData, none)
    if parts.1 = [] then
      { timeStr, hours, minutes, sourceTimezone := "", sourceLabel := "",
        error := some "Missing source timezone. Try: 7:22 CET" }
    else
      let sourcePart : String := ⟨parts.1⟩
      match resolveTimezone sourcePart with
      | [] =>
        { timeStr, hours, minutes, sourceTimezone := "", sourceLabel := sourcePart,
          error := some ("Unknown timezone: \"" ++ sourcePart ++ "\". Try CET, Berlin, or Europe/Berlin") }
      | sourceTimezone :: _ =>
        match parts.2 with
        | some tpD =>
          if tpD = [] then
            { timeStr, hours, minutes, sourceTimezone, sourceLabel := sourcePart }
          else
            let targetPart : String := ⟨tpD⟩
            match resolveTimezone targetPart with
            | [] =>
              { timeStr, hours, minutes, sourceTimezone, sourceLabel := sourcePart,
                error := some ("Unknown target timezone: \"" ++ targetPart ++ "\". Try CET, Berlin, or Europe/Berlin") }
            | t :: _ =>
              { timeStr, hours, minutes, sourceTimezone, sourceLabel := sourcePart,
                targetTimezone := some t }
        | none =>
          { timeStr, hours, minutes, sourceTimezone, sourceLabel := sourcePart }

/-- `parseQuery`: parse a free-text query into a `ParsedQuery`, mirroring
the source's early returns.  Total by construction: every failure is
surfaced through the `error` field. -/
def parseQuery (query : String) : ParsedQuery :=
  let trimmed := trimS query
  if trimmed = "" then
    { timeStr := "", hours := 0, minutes := 0, sourceTimezone := "", sourceLabel := "",
      error := some "Empty query. Try something like: 7:22 CET or 7:22pm PST to CET" }
  else
    match matchTime trimmed.data with
    | none =>
      { timeStr := "", hours := 0, minutes := 0, sourceTimezone := "", sourceLabel := "",
        error := some "Invalid time format. Use HH, HH:MM, or HH.MM, e.g., 11 CET, 7:22, or 7.22pm" }
    | some tm =>
      let hours0 := digitsToNat tm.hoursStr
      let minutes := minutesOfMatch tm
      match tm.meridiem with
      | some mer =>
        if hours0 < 1 ∨ 12 < hours0 then
          { timeStr := ⟨tm.consumed⟩, hours := hours0, minutes, sourceTimezone := "",
            sourceLabel := "", error := some "Invalid time: hour must be 1-12 when using AM/PM" }
        else
          let hours :=
            if mer = Meridiem.pm ∧ hours0 ≠ 12 then hours0 + 12
            else if mer = Meridiem.am ∧ hours0 = 12 then 0
            else hours0
          parseQueryRest trimmed.data tm hours minutes
      | none =>
        if 23 < hours0 then
          { timeStr := ⟨tm.consumed⟩, hours := hours0, minutes, sourceTimezone := "",
            sourceLabel := "", error := some "Invalid time: hour must be 0-23" }
        else
          parseQueryRest trimmed.data tm hours0 minutes

-- ── Target assembly (`getTargetTimezones`) ────────────────────────────

/-- One entry of the target zone list. -/
structure Target where
  ianaId : String
  label : Option String := none
deriving DecidableEq, Repr

/-- The `add` closure of `getTargetTimezones`: skip identifiers already
present, otherwise append.  The source keeps a separate `seen` set that
always holds exactly the identifiers of `targets`; the model tests
membership in `targets` directly. -/
def addTarget (targets : List Target) (z : String) (label : Option String) : List Target :=
  if targets.any fun t => t.ianaId == z then targets
  else targets ++ [{ ianaId := z, label }]

/-- Add every zone of a resolution result (each without a label). -/
def addAllTargets (targets : List Target) (zs : List String) : List Target :=
  zs.foldl (fun acc z => addTarget acc z none) targets

/-- `getTargetTimezones`: build the ordered, deduplicated list of target
zones (local zone, explicit target, favorites).  The caller's local zone
(`Intl.DateTimeFormat().resolvedOptions().timeZone` in the source) is a
host ambient passed here as the explicit `localIana` argument. -/
def getTargetTimezones (localIana : String) (parsed : ParsedQuery) (favoriteSetting : String) : List Target :=
  let t0 := addTarget [] localIana none
  let t1 :=
    match parsed.targetTimezone with
    | none => t0
    | some tz =>
      match resolveTimezone tz with
      | [] => addTarget t0 tz none
      | zs => addAllTargets t0 zs
  if trimS favoriteSetting = "" then t1
  else
    let entries := ((splitOnChar ',' favoriteSetting.data).map trimList)
    entries.foldl
      (fun acc entry =>
        if entry = [] then acc
        else addAllTargets acc (resolveTimezone ⟨entry⟩))
      t1

-- ── Calendar model (host `Intl` date formatting) ──────────────────────

/-- The calendar/clock fields the source reads off the host's formatter
(`getDateParts`): year, month 1-12, day 1-31, hour 0-23, minute 0-59. -/
structure DateParts where
  year : Int
  month : Nat
  day : Nat
  hour : Nat
  minute : Nat
deriving DecidableEq, Repr

/-- Modelled from the spec: the host's proleptic Gregorian civil
calendar, converting a day number (days since 1970-01-01) to a civil
date.  Standard era/year-of-era decomposition over 400-year cycles. -/
def civilFromDays (z : Int) : Int × Nat × Nat :=
  let zd := z + 719468
  let era := zd / 146097
  let doe := (zd % 146097).toNat
  let yoe := (doe - doe / 1460 + doe / 36524 - doe / 146096) / 365
  let doy := doe - (365 * yoe + yoe / 4 - yoe / 100)
  let mp := (5 * doy + 2) / 153
  let d := doy - (153 * mp + 2) / 5 + 1
  let m := if mp < 10 then mp + 3 else mp - 9
  let y := (yoe : Int) + era * 400
  (if m ≤ 2 then y + 1 else y, m, d)

/-- Modelled from the spec: inverse conversion from a civil date to the
day number since 1970-01-01. -/
def daysFromCivil (y : Int) (m d : Nat) : Int :=
  let yAdj := if m ≤ 2 then y - 1 else y
  let era := yAdj / 400
  let yoe := (yAdj % 400).toNat
  let mp := if 2 < m then m - 3 else m + 9
  let doy := (153 * mp + 2) / 5 + d - 1
  let doe := 365 * yoe + yoe / 4 - yoe / 100 + doy
  era * 146097 + (doe : Int) - 719468

/-- The UTC calendar/clock fields of an instant, measured in whole
minutes since the epoch.  Instants are modelled in minutes rather than
milliseconds: every `Date` the source builds has zero seconds and
milliseconds and every offset is a whole number of minutes, so the
millisecond arithmetic of the source is an exact 60000-fold scaling of
this model.  The source's `% 24` hour normalization (for hosts that
format midnight as "24") is kept even though the model never produces 24. -/
def partsOfMinutes (t : Int) : DateParts :=
  let mins := (t % 1440).toNat
  let c := civilFromDays (t / 1440)
  { year := c.1, month := c.2.1, day := c.2.2, hour := mins / 60 % 24, minute := mins % 60 }

/-- The host context `convertTime` consumes: per-zone UTC offsets in
minutes (constant per zone — the premise of the round-trip property, no
DST transition in scope), the caller's local zone, today's UTC civil
date, and the host's locale formatting of abbreviation and clock text.
Modelled from the spec: all of these are host `Intl` capabilities. -/
structure TzHost where
  off : String → Int
  localIana : String
  todayY : Int
  todayM : Nat
  todayD : Nat
  abbrevAt : String → Int → String
  formatAt : String → Int → String

/-- The wall-clock fields of instant `t` in zone `z` under the host
model: a constant-offset zone shows the UTC calendar shifted by its
offset. -/
def wallParts (host : TzHost) (z : String) (t : Int) : DateParts :=
  partsOfMinutes (t + host.off z)

/-- The field-weighted minute count `getUtcOffsetMinutes` assigns to the
formatted parts (year*525960 + month*43800 + day*1440 + hour*60 + minute). -/
def weightedMinutes (p : DateParts) : Int :=
  p.year * 525960 + (p.month : Int) * 43800 + (p.day : Int) * 1440
    + (p.hour : Int) * 60 + (p.minute : Int)

/-- `getUtcOffsetMinutes`: difference of the weighted field sums of the
zone's parts and UTC's parts at the same instant. -/
def getUtcOffsetMinutes (host : TzHost) (ianaId : String) (t : Int) : Int :=
  weightedMinutes (wallParts host ianaId t) - weightedMinutes (partsOfMinutes t)

/-- `formatUtcOffset`: render an offset in minutes as a signed HH:MM text. -/
def formatUtcOffset (offsetMinutes : Int) : String :=
  let sign := if 0 ≤ offsetMinutes then "+" else "-"
  let a := offsetMinutes.natAbs
  sign ++ pad2 (a / 60) ++ ":" ++ pad2 (a % 60)

/-- `ConvertedTime` as produced by `convertTime`. -/
structure ConvertedTime where
  ianaId : String
  abbreviation : String
  formattedTime : String
  utcOffset : String
  dayOffset : Int
  isLocal : Bool
  label : Option String
  hours : Nat
  minutes : Nat
deriving DecidableEq, Repr

/-- The reference instant of `convertTime`: today's UTC date combined
with the given wall-clock time, read as UTC. -/
def refMinutes (host : TzHost) (hours minutes : Nat) : Int :=
  1440 * daysFromCivil host.todayY host.todayM host.todayD
    + 60 * (hours : Int) + (minutes : Int)

/-- `convertTime`: convert a wall-clock time from a source zone to a
target zone, mirroring the source's five steps. -/
def convertTime (host : TzHost) (hours minutes : Nat)
    (sourceIana targetIana : String) (dLabel : Option String) : ConvertedTime :=
  let refMin := refMinutes host hours minutes
  let sourceOffset := getUtcOffsetMinutes host sourceIana refMin
  let actualUtc := refMin - sourceOffset
  let targetOffset := getUtcOffsetMinutes host targetIana actualUtc
  let sourceParts := wallParts host sourceIana actualUtc
  let targetParts := wallParts host targetIana actualUtc
  let dayRaw : Int := (targetParts.day : Int) - (sourceParts.day : Int)
  let dayOffset := if 15 < dayRaw then dayRaw - 30 else if dayRaw < -15 then dayRaw + 30 else dayRaw
  { ianaId := targetIana
    abbreviation := host.abbrevAt targetIana actualUtc
    formattedTime := host.formatAt targetIana actualUtc
    utcOffset := formatUtcOffset targetOffset
    dayOffset := dayOffset
    isLocal := targetIana == host.localIana
    label := dLabel
    hours := targetParts.hour
    minutes := targetParts.minute }

/-- The day-number shift between the target-zone wall clock and the
reference day, used to state the round-trip property. -/
def dayShift (host : TzHost) (h m : Nat) (A B : String) : Int :=
  (refMinutes host h m - host.off A + host.off B) / 1440
    - (refMinutes host h m) / 1440

-- ── Auxiliary definitions used by the claim statements ────────────────

/-- The query text "H:MM CET": the hour written in decimal without
padding, a colon, the minute written with exactly two digits, a space,
and the abbreviation CET. -/
def mkHmmCet (h m : Nat) : String := natToStr2 h ++ ":" ++ pad2 m ++ " CET"

/-- The hour-range condition `parseQuery` checks for the given meridiem
mode: 1-12 when a meridiem is present, 0-23 otherwise. -/
def hourOutOfRange (mer : Option Meridiem) (h : Nat) : Prop :=
  match mer with
  | some _ => h < 1 ∨ 12 < h
  | none => 23 < h

/-- The hour-range error text for the given meridiem mode. -/
def hourRangeError (mer : Option Meridiem) : String :=
  match mer with
  | some _ => "Invalid time: hour must be 1-12 when using AM/PM"
  | none => "Invalid time: hour must be 0-23"

/-- Rule 1 of the spec's resolution precedence: the trimmed input is a
valid canonical identifier exactly. -/
def stageExact (trimmed : String) : List String :=
  if isValidIana trimmed then [trimmed] else []

/-- Rule 2: the title-cased guess differs from the input and is valid. -/
def stageGuess (trimmed : String) : List String :=
  let g := titleGuessS trimmed
  if g != trimmed && isValidIana g then [g] else []

/-- Rule 3: the short-form table at the lowercased input. -/
def stageShort (trimmed : String) : List String :=
  match tblLookup SHORT_FORM_MAP (lowerS trimmed) with
  | some z => [z]
  | none => []

/-- Rule 4: the abbreviation table at the lowercased input, as the full
ordered list. -/
def stageAbbrev (trimmed : String) : List String :=
  (abbrevLookup (lowerS trimmed)).getD []

/-- Rule 5: the city/region table at the lowercased input. -/
def stageCity (trimmed : String) : List String :=
  match tblLookup CITY_MAP (lowerS trimmed) with
  | some z => [z]
  | none => []

/-- The spec's description of the Zone Resolver, written independently of
the source: empty input resolves to nothing, otherwise the first of the
five rules producing a non-empty result wins and later rules are not
consulted (rule 6 is the empty fallback). -/
def resolveSpec (input : String) : List String :=
  let trimmed := trimS input
  if trimmed = "" then []
  else
    (([stageExact trimmed, stageGuess trimmed, stageShort trimmed,
       stageAbbrev trimmed, stageCity trimmed].find? fun r => !r.isEmpty).getD [])

/-- Host at a 2026-01-31 reference date with a zone "Zplus" one hour
ahead of UTC (constant offsets, no DST in scope). -/
def hostJan31 : TzHost :=
  { off := fun z => if z = "Zplus" then 60 else 0
    localIana := "UTC"
    todayY := 2026, todayM := 1, todayD := 31
    abbrevAt := fun _ _ => "", formatAt := fun _ _ => "" }

/-- Host at a 2026-06-15 reference date with the constant +05:30 offset
of Asia/Kolkata (no DST in scope). -/
def hostJun15 : TzHost :=
  { off := fun z => if z = "Asia/Kolkata" then 330 else 0
    localIana := "UTC"
    todayY := 2026, todayM := 6, todayD := 15
    abbrevAt := fun _ _ => "", formatAt := fun _ _ => "" }

-- ── Facts about digit characters and generic parser steps ─────────────

theorem data_append (s t : String) : (s ++ t).data = s.data ++ t.data := rfl

theorem dc_isDigit : ∀ d < 10, (digitChar d).isDigit = true := by decide

theorem dc_toNat : ∀ d < 10, (digitChar d).toNat - 48 = d := by decide

theorem dc_notSpace : ∀ d < 10, isSpaceC (digitChar d) = false := by decide

/-- The success path of `parseQueryRest`: when the minutes are in range,
the remainder after the time match trims to a non-empty phrase without a
"to" separator, and that phrase resolves, the parse succeeds with the
first resolved zone as source. -/
theorem parseQueryRest_success (trimmedData restD : List Char) (tm : TimeMatch)
    (hours minutes : Nat) (z : String) (zs : List String)
    (hm59 : ¬ 59 < minutes)
    (hrest : trimList (trimmedData.drop tm.consumed.length) = restD)
    (hfind : findTo restD = none) (hne : restD ≠ [])
    (hres : resolveTimezone ⟨restD⟩ = z :: zs) :
    parseQueryRest trimmedData tm hours minutes =
      { timeStr := ⟨trimList tm.consumed⟩, hours, minutes,
        sourceTimezone := z, sourceLabel := ⟨restD⟩ } := by
  simp only [parseQueryRest, hrest, hfind, hres]
  rw [if_neg hm59, if_neg hne]

/-- Parse of a one-digit-hour "H:MM CET" query, parametric in the digit
characters. -/
theorem parse_hmm_cet_1 (a m1 m2 : Char)
    (ha : a.isDigit = true) (hm1 : m1.isDigit = true) (hm2 : m2.isDigit = true)
    (hsa : isSpaceC a = false) (hs2 : isSpaceC m2 = false)
    (hle : a.toNat - 48 ≤ 23) (mle : 10 * (m1.toNat - 48) + (m2.toNat - 48) ≤ 59) :
    parseQuery ⟨[a, ':', m1, m2, ' ', 'C', 'E', 'T']⟩ =
      { timeStr := ⟨[a, ':', m1, m2]⟩, hours := a.toNat - 48,
        minutes := 10 * (m1.toNat - 48) + (m2.toNat - 48),
        sourceTimezone := "Europe/Berlin", sourceLabel := "CET" } := by
  have s1 : isSpaceC ' ' = true := rfl
  have s2 : isSpaceC 'C' = false := rfl
  have s4 : isSpaceC 'T' = false := rfl
  have d1 : (':' : Char).isDigit = false := rfl
  have hCa : ¬('C'.toLower = 'a' ∧ 'E'.toLower = 'm') := by decide
  have hCp : ¬('C'.toLower = 'p' ∧ 'E'.toLower = 'm') := by decide
  have htrim : trimList [a, ':', m1, m2, ' ', 'C', 'E', 'T'] = [a, ':', m1, m2, ' ', 'C', 'E', 'T'] := by
    simp [trimList, List.dropWhile_cons, hsa, s4]
  have hmt : matchTime [a, ':', m1, m2, ' ', 'C', 'E', 'T'] =
      some { consumed := [a, ':', m1, m2, ' '], hoursStr := [a],
             minutesStr := some [m1, m2], meridiem := none } := by
    simp [matchTime, ha, hm1, hm2, d1, s1, s2, hCa, hCp, List.takeWhile, List.dropWhile]
  have htrimc : trimList [a, ':', m1, m2, ' '] = [a, ':', m1, m2] := by
    simp [trimList, List.dropWhile_cons, hsa, s1, hs2]
  have hrest : trimList (List.drop (List.length [a, ':', m1, m2, ' ']) [a, ':', m1, m2, ' ', 'C', 'E', 'T']) = ['C', 'E', 'T'] := by
    simp only [List.length_cons, List.length_nil, List.drop]
    decide
  have hresolve : resolveTimezone ⟨['C', 'E', 'T']⟩ = "Europe/Berlin" :: [] := by decide
  have hfind : findTo ['C', 'E', 'T'] = none := by decide
  have hda : digitsToNat [a] = a.toNat - 48 := by simp [digitsToNat]
  have hdm : minutesOfMatch
      { consumed := [a, ':', m1, m2, ' '], hoursStr := [a],
        minutesStr := some [m1, m2], meridiem := none } =
      10 * (m1.toNat - 48) + (m2.toNat - 48) := by
    simp [minutesOfMatch, digitsToNat]
  have hne : ¬((⟨[a, ':', m1, m2, ' ', 'C', 'E', 'T']⟩ : String) = "") := by
    simp [String.ext_iff]
  have hh23 : ¬(23 < a.toNat - 48) := by omega
  simp only [parseQuery, trimS, htrim, hmt, hda, hdm]
  rw [if_neg hne, if_neg hh23]
  rw [parseQueryRest_success _ ['C', 'E', 'T'] _ _ _ "Europe/Berlin" [] (by omega) hrest hfind (by simp) hresolve]
  rw [htrimc]

/-- Parse of a two-digit-hour "HH:MM CET" query, parametric in the digit
characters. -/
theorem parse_hmm_cet_2 (a b m1 m2 : Char)
    (ha : a.isDigit = true) (hb : b.isDigit = true)
    (hm1 : m1.isDigit = true) (hm2 : m2.isDigit = true)
    (hsa : isSpaceC a = false) (hs2 : isSpaceC m2 = false)
    (hle : 10 * (a.toNat - 48) + (b.toNat - 48) ≤ 23)
    (mle : 10 * (m1.toNat - 48) + (m2.toNat - 48) ≤ 59) :
    parseQuery ⟨[a, b, ':', m1, m2, ' ', 'C', 'E', 'T']⟩ =
      { timeStr := ⟨[a, b, ':', m1, m2]⟩, hours := 10 * (a.toNat - 48) + (b.toNat - 48),
        minutes := 10 * (m1.toNat - 48) + (m2.toNat - 48),
        sourceTimezone := "Europe/Berlin", sourceLabel := "CET" } := by
  have s1 : isSpaceC ' ' = true := rfl
  have s2 : isSpaceC 'C' = false := rfl
  have s4 : isSpaceC 'T' = false := rfl
  have d1 : (':' : Char).isDigit = false := rfl
  have hCa : ¬('C'.toLower = 'a' ∧ 'E'.toLower = 'm') := by decide
  have hCp : ¬('C'.toLower = 'p' ∧ 'E'.toLower = 'm') := by decide
  have htrim : trimList [a, b, ':', m1, m2, ' ', 'C', 'E', 'T'] = [a, b, ':', m1, m2, ' ', 'C', 'E', 'T'] := by
    simp [trimList, List.dropWhile_cons, hsa, s4]
  have hmt : matchTime [a, b, ':', m1, m2, ' ', 'C', 'E', 'T'] =
      some { consumed := [a, b, ':', m1, m2, ' '], hoursStr := [a, b],
             minutesStr := some [m1, m2], meridiem := none } := by
    simp [matchTime, ha, hb, hm1, hm2, d1, s1, s2, hCa, hCp, List.takeWhile, List.dropWhile]
  have htrimc : trimList [a, b, ':', m1, m2, ' '] = [a, b, ':', m1, m2] := by
    simp [trimList, List.dropWhile_cons, hsa, s1, hs2]
  have hrest : trimList (List.drop (List.length [a, b, ':', m1, m2, ' ']) [a, b, ':', m1, m2, ' ', 'C', 'E', 'T']) = ['C', 'E', 'T'] := by
    simp only [List.length_cons, List.length_nil, List.drop]
    decide
  have hresolve : resolveTimezone ⟨['C', 'E', 'T']⟩ = "Europe/Berlin" :: [] := by decide
  have hfind : findTo ['C', 'E', 'T'] = none := by decide
  have hda : digitsToNat [a, b] = 10 * (a.toNat - 48) + (b.toNat - 48) := by
    simp [digitsToNat]
  have hdm : minutesOfMatch
      { consumed := [a, b, ':', m1, m2, ' '], hoursStr := [a, b],
        minutesStr := some [m1, m2], meridiem := none } =
      10 * (m1.toNat - 48) + (m2.toNat - 48) := by
    simp [minutesOfMatch, digitsToNat]
  have hne : ¬((⟨[a, b, ':', m1, m2, ' ', 'C', 'E', 'T']⟩ : String) = "") := by
    simp [String.ext_iff]
  have hh23 : ¬(23 < 10 * (a.toNat - 48) + (b.toNat - 48)) := by omega
  simp only [parseQuery, trimS, htrim, hmt, hda, hdm]
  rw [if_neg hne, if_neg hh23]
  rw [parseQueryRest_success _ ['C', 'E', 'T'] _ _ _ "Europe/Berlin" [] (by omega) hrest hfind (by simp) hresolve]
  rw [htrimc]

/-- C1: for every hour H in 0-23 and two-digit minute MM in 0-59,
parsing "H:MM CET" succeeds with no error, hours H, minutes MM, and
source timezone Europe/Berlin. -/
theorem parseQuery_hmm_cet_ok (h : Nat) (hh : h < 24) (m : Nat) (hm : m < 60) :
    (parseQuery (mkHmmCet h m)).error = none
    ∧ (parseQuery (mkHmmCet h m)).hours = h
    ∧ (parseQuery (mkHmmCet h m)).minutes = m
    ∧ (parseQuery (mkHmmCet h m)).sourceTimezone = "Europe/Berlin" := by
  have hm1 : m / 10 < 10 := by omega
  have hm2 : m % 10 < 10 := by omega
  by_cases h10 : h < 10
  · have e : mkHmmCet h m = ⟨[digitChar h, ':', digitChar (m / 10), digitChar (m % 10), ' ', 'C', 'E', 'T']⟩ := by
      apply String.ext
      simp [mkHmmCet, data_append, natToStr2, if_pos h10, pad2]
    rw [e, parse_hmm_cet_1 _ _ _ (dc_isDigit h h10) (dc_isDigit _ hm1) (dc_isDigit _ hm2)
      (dc_notSpace h h10) (dc_notSpace _ hm2)
      (by rw [dc_toNat h h10]; omega)
      (by rw [dc_toNat _ hm1, dc_toNat _ hm2]; omega)]
    refine ⟨rfl, ?_, ?_, rfl⟩
    · show (digitChar h).toNat - 48 = h
      rw [dc_toNat h h10]
    · show 10 * ((digitChar (m / 10)).toNat - 48) + ((digitChar (m % 10)).toNat - 48) = m
      rw [dc_toNat _ hm1, dc_toNat _ hm2]
      omega
  · have ha1 : h / 10 < 10 := by omega
    have ha2 : h % 10 < 10 := by omega
    have e : mkHmmCet h m = ⟨[digitChar (h / 10), digitChar (h % 10), ':', digitChar (m / 10), digitChar (m % 10), ' ', 'C', 'E', 'T']⟩ := by
      apply String.ext
      simp [mkHmmCet, data_append, natToStr2, if_neg h10, pad2]
    rw [e, parse_hmm_cet_2 _ _ _ _ (dc_isDigit _ ha1) (dc_isDigit _ ha2)
      (dc_isDigit _ hm1) (dc_isDigit _ hm2)
      (dc_notSpace _ ha1) (dc_notSpace _ hm2)
      (by rw [dc_toNat _ ha1, dc_toNat _ ha2]; omega)
      (by rw [dc_toNat _ hm1, dc_toNat _ hm2]; omega)]
    refine ⟨rfl, ?_, ?_, rfl⟩
    · show 10 * ((digitChar (h / 10)).toNat - 48) + ((digitChar (h % 10)).toNat - 48) = h
      rw [dc_toNat _ ha1, dc_toNat _ ha2]
      omega
    · show 10 * ((digitChar (m / 10)).toNat - 48) + ((digitChar (m % 10)).toNat - 48) = m
      rw [dc_toNat _ hm1, dc_toNat _ hm2]
      omega

/-- Witness for C1 at hour 7 and minute 22 ("7:22 CET"). -/
theorem parseQuery_hmm_cet_ok_witness :
    (parseQuery (mkHmmCet 7 22)).error = none
    ∧ (parseQuery (mkHmmCet 7 22)).hours = 7
    ∧ (parseQuery (mkHmmCet 7 22)).minutes = 22
    ∧ (parseQuery (mkHmmCet 7 22)).sourceTimezone = "Europe/Berlin" :=
  parseQuery_hmm_cet_ok 7 (by decide) 22 (by decide)

-- ── Zone Resolver claims ──────────────────────────────────────────────

theorem abbrev_values_ne_nil : ∀ p ∈ ABBREVIATION_MAP, p.2 ≠ [] := by decide

theorem abbrevLookup_ne_nil (k : String) (zs : List String)
    (h : abbrevLookup k = some zs) : zs ≠ [] := by
  unfold abbrevLookup at h
  cases hf : ABBREVIATION_MAP.find? fun p => p.1 == k with
  | none => rw [hf] at h; simp at h
  | some p =>
    rw [hf] at h
    simp only [Option.map_some'] at h
    injection h with h
    exact h ▸ abbrev_values_ne_nil p (List.mem_of_find?_eq_some hf)

/-- C5: on every input, `resolveTimezone` agrees with the spec's
six-stage precedence (first non-empty stage wins, later stages are not
consulted), and empty or whitespace-only input resolves to nothing. -/
theorem resolveTimezone_precedence (input : String) :
    resolveTimezone input = resolveSpec input
    ∧ (trimS input = "" → resolveTimezone input = []) := by
  by_cases h0 : trimS input = ""
  · constructor
    · simp only [resolveTimezone, resolveSpec, if_pos h0]
    · intro
      simp only [resolveTimezone, if_pos h0]
  · refine ⟨?_, fun h => absurd h h0⟩
    simp only [resolveTimezone, resolveSpec, if_neg h0]
    cases hv : isValidIana (trimS input) with
    | true =>
      simp [stageExact, hv, List.find?]
    | false =>
      simp only [Bool.false_eq_true, if_false]
      cases hg : (titleGuessS (trimS input) != trimS input && isValidIana (titleGuessS (trimS input))) with
      | true =>
        simp [stageExact, stageGuess, hv, hg, List.find?]
      | false =>
        simp only [Bool.false_eq_true, if_false]
        cases hs : tblLookup SHORT_FORM_MAP (lowerS (trimS input)) with
        | some z =>
          simp [stageExact, stageGuess, stageShort, hv, hg, hs, List.find?]
        | none =>
          cases ha : abbrevLookup (lowerS (trimS input)) with
          | some zs =>
            have hne := abbrevLookup_ne_nil _ _ ha
            cases zs with
            | nil => exact absurd rfl hne
            | cons w ws =>
              simp [stageExact, stageGuess, stageShort, stageAbbrev, hv, hg, hs, ha, List.find?]
          | none =>
            cases hc : tblLookup CITY_MAP (lowerS (trimS input)) with
            | some z =>
              simp [stageExact, stageGuess, stageShort, stageAbbrev, stageCity, hv, hg, hs, ha, hc, List.find?]
            | none =>
              simp [stageExact, stageGuess, stageShort, stageAbbrev, stageCity, hv, hg, hs, ha, hc, List.find?]

/-- Witness for C5 at the inputs "IST" and a whitespace-only string. -/
theorem resolveTimezone_precedence_witness :
    resolveTimezone "IST" = resolveSpec "IST" ∧ resolveTimezone " " = [] :=
  ⟨(resolveTimezone_precedence "IST").1,
   (resolveTimezone_precedence " ").2 (by decide)⟩

/-- C4: "IST" resolves to exactly Asia/Kolkata, Asia/Jerusalem and
Europe/Dublin in that order; the disambiguation label of Asia/Kolkata
under "IST" is "India Standard Time"; and whenever the lowercased label
is not an abbreviation key with more than one candidate, no
disambiguation label is produced. -/
theorem resolve_ist_disambiguation :
    resolveTimezone "IST" = ["Asia/Kolkata", "Asia/Jerusalem", "Europe/Dublin"]
    ∧ getDisambiguationLabel "Asia/Kolkata" "IST" = some "India Standard Time"
    ∧ ∀ zoneId lbl : String,
        (∀ ms, abbrevLookup (lowerS lbl) = some ms → ms.length ≤ 1) →
        getDisambiguationLabel zoneId lbl = none := by
  refine ⟨by decide, by decide, ?_⟩
  intro zoneId lbl h
  simp only [getDisambiguationLabel]
  cases ha : abbrevLookup (lowerS lbl) with
  | none => rfl
  | some ms =>
    exact if_pos (h ms ha)

/-- Witness for C4's quantified part at zone Europe/Berlin and the label
"kolkata" (a city key, not an abbreviation key). -/
theorem resolve_ist_disambiguation_witness :
    getDisambiguationLabel "Europe/Berlin" "kolkata" = none :=
  resolve_ist_disambiguation.2.2 "Europe/Berlin" "kolkata"
    (fun ms h => by
      rw [show abbrevLookup (lowerS "kolkata") = none from by decide] at h
      exact Option.noConfusion h)

-- ── Target assembly claims ────────────────────────────────────────────

/-- C2: the ambiguous target "IST" of "7 CET to IST" is NOT re-expanded
by `getTargetTimezones`: `parseQuery` keeps only the first candidate
Asia/Kolkata as `targetTimezone`, so the re-resolution inside
`getTargetTimezones` (whose comment says it handles ambiguous targets)
resolves an already-canonical identifier back to a singleton, and the
other two IST candidates never reach the target list. -/
theorem getTargetTimezones_no_reexpansion :
    (parseQuery "7 CET to IST").error = none
    ∧ (parseQuery "7 CET to IST").targetTimezone = some "Asia/Kolkata"
    ∧ resolveTimezone "IST" = ["Asia/Kolkata", "Asia/Jerusalem", "Europe/Dublin"]
    ∧ (getTargetTimezones "UTC" (parseQuery "7 CET to IST") "").map Target.ianaId
        = ["UTC", "Asia/Kolkata"]
    ∧ "Asia/Jerusalem" ∉ (getTargetTimezones "UTC" (parseQuery "7 CET to IST") "").map Target.ianaId
    ∧ "Europe/Dublin" ∉ (getTargetTimezones "UTC" (parseQuery "7 CET to IST") "").map Target.ianaId := by
  decide

-- ── Time-pattern claims ───────────────────────────────────────────────

/-- C9: in "7 amsterdam" the meridiem group consumes "am" (no trailing
word boundary in the pattern), so the time is 7 AM, the source phrase is
"sterdam", and parsing fails with an unknown-timezone error even though
"amsterdam" itself would resolve. -/
theorem parseQuery_meridiem_eats_amsterdam :
    matchTime (trimS "7 amsterdam").data =
      some { consumed := ['7', ' ', 'a', 'm'], hoursStr := ['7'],
             minutesStr := none, meridiem := some Meridiem.am }
    ∧ parseQuery "7 amsterdam" =
      { timeStr := "7 am", hours := 7, minutes := 0, sourceTimezone := "",
        sourceLabel := "sterdam",
        error := some "Unknown timezone: \"sterdam\". Try CET, Berlin, or Europe/Berlin" }
    ∧ resolveTimezone "amsterdam" = ["Europe/Amsterdam"] := by
  decide

/-- C10: in "7:5 CET" the one-digit minute does not match the two-digit
minute group, so the time is hour 7 with minute 0, the remainder
":5 CET" becomes the source phrase, and parsing fails with an
unknown-timezone error (not a time-format or minute-range error). -/
theorem parseQuery_single_digit_minute :
    matchTime (trimS "7:5 CET").data =
      some { consumed := ['7'], hoursStr := ['7'], minutesStr := none, meridiem := none }
    ∧ parseQuery "7:5 CET" =
      { timeStr := "7", hours := 7, minutes := 0, sourceTimezone := "",
        sourceLabel := ":5 CET",
        error := some "Unknown timezone: \":5 CET\". Try CET, Berlin, or Europe/Berlin" } := by
  decide

/-- C6: "25:00 CET" fails with the hour-range error and "7:60 CET" with
the minute-range error; whenever the matched hour is out of range for
its meridiem mode and the matched minutes are also out of range, the
hour check fires first and the hour-range error is returned alone. -/
theorem parseQuery_range_errors :
    (parseQuery "25:00 CET").error = some "Invalid time: hour must be 0-23"
    ∧ (parseQuery "7:60 CET").error = some "Invalid time: minutes must be 0-59"
    ∧ ∀ (q : String) (tm : TimeMatch),
        matchTime (trimS q).data = some tm →
        hourOutOfRange tm.meridiem (digitsToNat tm.hoursStr) →
        59 < minutesOfMatch tm →
        (parseQuery q).error = some (hourRangeError tm.meridiem) := by
  refine ⟨by decide, by decide, ?_⟩
  intro q tm hmt hor hmin
  have hne : ¬(trimS q = "") := by
    intro h
    rw [h] at hmt
    exact Option.noConfusion hmt
  obtain ⟨cons, hstr, minstr, mer⟩ := tm
  cases mer with
  | none =>
    simp only [parseQuery, hmt]
    rw [if_neg hne, if_pos (show 23 < digitsToNat hstr from hor)]
    rfl
  | some mer =>
    simp only [parseQuery, hmt]
    rw [if_neg hne,
      if_pos (show digitsToNat hstr < 1 ∨ 12 < digitsToNat hstr from hor)]
    rfl

/-- Witness for C6 at "25:60 CET", whose hour and minutes are both out
of range: the hour-range error wins. -/
theorem parseQuery_range_errors_witness :
    (parseQuery "25:60 CET").error = some "Invalid time: hour must be 0-23" :=
  parseQuery_range_errors.2.2 "25:60 CET"
    ⟨['2', '5', ':', '6', '0', ' '], ['2', '5'], some ['6', '0'], none⟩
    (by decide) (show (23 : Nat) < 25 by decide) (show (59 : Nat) < 60 by decide)

-- ── Parser totality and postcondition (claim C7) ──────────────────────

theorem valid_ids_ne_empty : ∀ x ∈ VALID_IANA_IDS, x ≠ "" := by decide

theorem short_values_ne_empty : ∀ p ∈ SHORT_FORM_MAP, p.2 ≠ "" := by decide

theorem city_values_ne_empty : ∀ p ∈ CITY_MAP, p.2 ≠ "" := by decide

theorem abbrev_values_ne_empty : ∀ p ∈ ABBREVIATION_MAP, ∀ z ∈ p.2, z ≠ "" := by decide

theorem tblLookup_mem (tbl : List (String × String)) (k v : String)
    (h : tblLookup tbl k = some v) : ∃ p ∈ tbl, p.2 = v := by
  unfold tblLookup at h
  cases hf : tbl.find? fun p => p.1 == k with
  | none => rw [hf] at h; exact Option.noConfusion h
  | some p =>
    rw [hf] at h
    injection h with h
    exact ⟨p, List.mem_of_find?_eq_some hf, h⟩

theorem abbrevLookup_mem (k : String) (zs : List String)
    (h : abbrevLookup k = some zs) : ∃ p ∈ ABBREVIATION_MAP, p.2 = zs := by
  unfold abbrevLookup at h
  cases hf : ABBREVIATION_MAP.find? fun p => p.1 == k with
  | none => rw [hf] at h; exact Option.noConfusion h
  | some p =>
    rw [hf] at h
    injection h with h
    exact ⟨p, List.mem_of_find?_eq_some hf, h⟩

theorem isValidIana_ne_empty (s : String) (h : isValidIana s = true) : s ≠ "" := by
  unfold isValidIana at h
  exact valid_ids_ne_empty s (List.mem_of_elem_eq_true h)

/-- Every identifier the Zone Resolver can return is a non-empty string. -/
theorem resolve_mem_ne_empty (s : String) (z : String)
    (hz : z ∈ resolveTimezone s) : z ≠ "" := by
  unfold resolveTimezone at hz
  by_cases h0 : trimS s = ""
  · rw [if_pos h0] at hz
    exact absurd hz (List.not_mem_nil z)
  · rw [if_neg h0] at hz
    cases hv : isValidIana (trimS s) with
    | true =>
      rw [if_pos hv] at hz
      rw [List.mem_singleton.mp hz]
      exact isValidIana_ne_empty _ hv
    | false =>
      rw [if_neg (by simp [hv])] at hz
      cases hg : (titleGuessS (trimS s) != trimS s && isValidIana (titleGuessS (trimS s))) with
      | true =>
        rw [if_pos hg] at hz
        rw [List.mem_singleton.mp hz]
        exact isValidIana_ne_empty _ (Bool.and_elim_right hg)
      | false =>
        rw [if_neg (by simp [hg])] at hz
        cases hs : tblLookup SHORT_FORM_MAP (lowerS (trimS s)) with
        | some v =>
          simp only [hs] at hz
          obtain ⟨p, hp, hpv⟩ := tblLookup_mem _ _ _ hs
          rw [List.mem_singleton.mp hz, ← hpv]
          exact short_values_ne_empty p hp
        | none =>
          cases ha : abbrevLookup (lowerS (trimS s)) with
          | some zs =>
            simp only [hs, ha] at hz
            obtain ⟨p, hp, hpv⟩ := abbrevLookup_mem _ _ ha
            exact abbrev_values_ne_empty p hp z (hpv ▸ hz)
          | none =>
            cases hc : tblLookup CITY_MAP (lowerS (trimS s)) with
            | some v =>
              simp only [hs, ha, hc] at hz
              obtain ⟨p, hp, hpv⟩ := tblLookup_mem _ _ _ hc
              rw [List.mem_singleton.mp hz, ← hpv]
              exact city_values_ne_empty p hp
            | none =>
              simp only [hs, ha, hc] at hz
              exact absurd hz (List.not_mem_nil z)

/-- Inversion of an error-free `parseQueryRest`: the hour and minute
arguments are returned unchanged, the minutes passed their range check,
and the source zone is the head of resolving the source label. -/
theorem parseQueryRest_of_ok (td : List Char) (tm : TimeMatch) (hours minutes : Nat) :
    (parseQueryRest td tm hours minutes).error = none →
    (parseQueryRest td tm hours minutes).hours = hours
    ∧ (parseQueryRest td tm hours minutes).minutes = minutes
    ∧ minutes ≤ 59
    ∧ (resolveTimezone (parseQueryRest td tm hours minutes).sourceLabel).head?
        = some (parseQueryRest td tm hours minutes).sourceTimezone
    ∧ (parseQueryRest td tm hours minutes).sourceTimezone ≠ "" := by
  unfold parseQueryRest
  split
  · intro h
    exact absurd h (by simp)
  · next hm59 =>
    dsimp only
    split
    · intro h
      exact absurd h (by simp)
    · next hsp =>
      split
      · next hres =>
        intro h
        exact absurd h (by simp)
      · next z zs hres =>
        split
        · next tpD =>
          split
          · intro _
            refine ⟨rfl, rfl, by omega, ?_, ?_⟩
            · simp only [hres, List.head?]
            · exact resolve_mem_ne_empty _ _ (hres ▸ List.mem_cons_self z zs)
          · split
            · next hrt =>
              intro h
              exact absurd h (by simp)
            · intro _
              refine ⟨rfl, rfl, by omega, ?_, ?_⟩
              · simp only [hres, List.head?]
              · exact resolve_mem_ne_empty _ _ (hres ▸ List.mem_cons_self z zs)
        · intro _
          refine ⟨rfl, rfl, by omega, ?_, ?_⟩
          · simp only [hres, List.head?]
          · exact resolve_mem_ne_empty _ _ (hres ▸ List.mem_cons_self z zs)

/-- C7: `parseQuery` is total (it is a Lean function), and when the
error field is absent the result is fully populated: the source zone
is a non-empty identifier, it is the first result of re-resolving the
stored source label, and the hour and minute are in range. -/
theorem parseQuery_error_as_data (q : String) :
    (parseQuery q).error = none →
    (parseQuery q).sourceTimezone ≠ ""
    ∧ (resolveTimezone (parseQuery q).sourceLabel).head? = some (parseQuery q).sourceTimezone
    ∧ (parseQuery q).hours ≤ 23
    ∧ (parseQuery q).minutes ≤ 59 := by
  by_cases h0 : trimS q = ""
  · intro h
    simp only [parseQuery, if_pos h0] at h
    exact absurd h (by simp)
  · cases hmt : matchTime (trimS q).data with
    | none =>
      intro h
      simp only [parseQuery, if_neg h0, hmt] at h
      exact absurd h (by simp)
    | some tm =>
      obtain ⟨cons, hstr, minstr, mer⟩ := tm
      cases mer with
      | none =>
        by_cases hhr : 23 < digitsToNat hstr
        · intro h
          simp only [parseQuery, if_neg h0, hmt, if_pos hhr] at h
          exact absurd h (by simp)
        · intro h
          simp only [parseQuery, if_neg h0, hmt, if_neg hhr] at h ⊢
          obtain ⟨h1, h2, h3, h4, h5⟩ := parseQueryRest_of_ok _ _ _ _ h
          refine ⟨h5, h4, ?_, ?_⟩
          · rw [h1]; omega
          · rw [h2]; exact h3
      | some mer =>
        by_cases hhr : digitsToNat hstr < 1 ∨ 12 < digitsToNat hstr
        · intro h
          simp only [parseQuery, if_neg h0, hmt, if_pos hhr] at h
          exact absurd h (by simp)
        · intro h
          simp only [parseQuery, if_neg h0, hmt, if_neg hhr] at h ⊢
          obtain ⟨h1, h2, h3, h4, h5⟩ := parseQueryRest_of_ok _ _ _ _ h
          refine ⟨h5, h4, ?_, ?_⟩
          · rw [h1]
            split_ifs <;> omega
          · rw [h2]; exact h3

/-- Witness for C7 at the error-free query "7:22 CET". -/
theorem parseQuery_error_as_data_witness :
    (parseQuery "7:22 CET").sourceTimezone ≠ ""
    ∧ (resolveTimezone (parseQuery "7:22 CET").sourceLabel).head?
        = some (parseQuery "7:22 CET").sourceTimezone
    ∧ (parseQuery "7:22 CET").hours ≤ 23
    ∧ (parseQuery "7:22 CET").minutes ≤ 59 :=
  parseQuery_error_as_data "7:22 CET" (by decide)

-- ── Target assembly invariants (claim C8) ─────────────────────────────

theorem addTarget_pres (ts : List Target) (z : String) (lbl : Option String) (x : Target)
    (h1 : (ts.map Target.ianaId).Nodup) (h2 : ts.head? = some x) :
    ((addTarget ts z lbl).map Target.ianaId).Nodup
    ∧ (addTarget ts z lbl).head? = some x := by
  unfold addTarget
  split
  · exact ⟨h1, h2⟩
  · next hany =>
    rw [Bool.not_eq_true] at hany
    constructor
    · rw [List.map_append]
      refine List.Nodup.append h1 (List.nodup_singleton _) ?_
      intro w hw hw2
      simp only [List.map_cons, List.map_nil, List.mem_singleton] at hw2
      subst hw2
      obtain ⟨t, ht, htz⟩ := List.mem_map.mp hw
      have := List.any_eq_false.mp hany t ht
      simp [htz] at this
    · cases ts with
      | nil => exact Option.noConfusion h2
      | cons a as => exact h2

theorem addAllTargets_pres (zs : List String) (ts : List Target) (x : Target)
    (h1 : (ts.map Target.ianaId).Nodup) (h2 : ts.head? = some x) :
    ((addAllTargets ts zs).map Target.ianaId).Nodup
    ∧ (addAllTargets ts zs).head? = some x := by
  induction zs generalizing ts with
  | nil => exact ⟨h1, h2⟩
  | cons z zs ih =>
    have step := addTarget_pres ts z none x h1 h2
    exact ih _ step.1 step.2

theorem head?_some_length {α : Type} (l : List α) (x : α) (h : l.head? = some x) :
    1 ≤ l.length := by
  cases l with
  | nil => exact Option.noConfusion h
  | cons a as => simp

/-- C8: for every parsed query and favorites string, the assembled
target list has no duplicate zone identifiers, starts with the caller's
local zone, and has length at least one. -/
theorem getTargetTimezones_invariants (localIana : String) (parsed : ParsedQuery)
    (fav : String) (_hok : parsed.error = none) :
    ((getTargetTimezones localIana parsed fav).map Target.ianaId).Nodup
    ∧ (getTargetTimezones localIana parsed fav).head? = some { ianaId := localIana, label := none }
    ∧ 1 ≤ (getTargetTimezones localIana parsed fav).length := by
  unfold getTargetTimezones
  have h00 : addTarget [] localIana none = [{ ianaId := localIana, label := none }] := rfl
  have base1 : (([{ ianaId := localIana, label := none }] : List Target).map Target.ianaId).Nodup := by
    simp
  have base2 : ([{ ianaId := localIana, label := none }] : List Target).head?
      = some { ianaId := localIana, label := none } := rfl
  rw [h00]
  have step1 :
      ∀ t1 : List Target,
        (t1.map Target.ianaId).Nodup →
        t1.head? = some { ianaId := localIana, label := none } →
        ((if trimS fav = "" then t1
          else ((splitOnChar ',' fav.data).map trimList).foldl
            (fun acc entry => if entry = [] then acc else addAllTargets acc (resolveTimezone ⟨entry⟩)) t1).map
            Target.ianaId).Nodup
        ∧ (if trimS fav = "" then t1
          else ((splitOnChar ',' fav.data).map trimList).foldl
            (fun acc entry => if entry = [] then acc else addAllTargets acc (resolveTimezone ⟨entry⟩)) t1).head?
            = some { ianaId := localIana, label := none } := by
    intro t1 h1 h2
    split
    · exact ⟨h1, h2⟩
    · generalize (splitOnChar ',' fav.data).map trimList = entries
      induction entries generalizing t1 with
      | nil => exact ⟨h1, h2⟩
      | cons e es ih =>
        simp only [List.foldl_cons]
        by_cases he : e = []
        · rw [if_pos he]
          exact ih t1 h1 h2
        · rw [if_neg he]
          have step := addAllTargets_pres (resolveTimezone ⟨e⟩) t1 _ h1 h2
          exact ih _ step.1 step.2
  cases htz : parsed.targetTimezone with
  | none =>
    simp only [htz]
    have r := step1 _ base1 base2
    exact ⟨r.1, r.2, head?_some_length _ _ r.2⟩
  | some tz =>
    cases hres : resolveTimezone tz with
    | nil =>
      simp only [htz, hres]
      have step := addTarget_pres _ tz none _ base1 base2
      have r := step1 _ step.1 step.2
      exact ⟨r.1, r.2, head?_some_length _ _ r.2⟩
    | cons z zs =>
      simp only [htz, hres]
      have step := addAllTargets_pres (z :: zs) _ _ base1 base2
      have r := step1 _ step.1 step.2
      exact ⟨r.1, r.2, head?_some_length _ _ r.2⟩

/-- Witness for C8 at "7 CET to IST" with favorites "Tokyo, CET". -/
theorem getTargetTimezones_invariants_witness :
    ((getTargetTimezones "UTC" (parseQuery "7 CET to IST") "Tokyo, CET").map Target.ianaId).Nodup
    ∧ (getTargetTimezones "UTC" (parseQuery "7 CET to IST") "Tokyo, CET").head?
        = some { ianaId := "UTC", label := none }
    ∧ 1 ≤ (getTargetTimezones "UTC" (parseQuery "7 CET to IST") "Tokyo, CET").length :=
  getTargetTimezones_invariants "UTC" (parseQuery "7 CET to IST") "Tokyo, CET" (by decide)

-- ── Time Converter round trip (claim C3) ──────────────────────────────

/-- The round-trip claim fails as stated even for constant-offset zones:
with today = 2026-01-31, converting 23:00 from UTC to a zone one hour
ahead crosses into February, the raw day difference 1 - 31 = -30 trips
the month-wrap heuristic and the forward day offset becomes 0 instead of
+1; converting the resulting 0:00 back yields 23:00 with day offset -1,
which is not the negation of 0. -/
theorem convertTime_roundTrip_counterexample :
    (convertTime hostJan31 23 0 "UTC" "Zplus" none).hours = 0
    ∧ (convertTime hostJan31 23 0 "UTC" "Zplus" none).minutes = 0
    ∧ (convertTime hostJan31 23 0 "UTC" "Zplus" none).dayOffset = 0
    ∧ (convertTime hostJan31 0 0 "Zplus" "UTC" none).hours = 23
    ∧ (convertTime hostJan31 0 0 "Zplus" "UTC" none).minutes = 0
    ∧ (convertTime hostJan31 0 0 "Zplus" "UTC" none).dayOffset = -1
    ∧ ¬((convertTime hostJan31 0 0 "Zplus" "UTC" none).dayOffset
        = -(convertTime hostJan31 23 0 "UTC" "Zplus" none).dayOffset) := by
  decide

/-- C3 (amended): the round trip holds for constant-offset zones
provided no calendar month boundary interferes: the field-weighted
offset computation is exact at both reference instants (HA, HB), the
day-of-month differences between source and target wall dates equal the
actual day-number shift at both conversions (HD1, HD2), and that shift
is at most 15 days so the month-wrap correction stays inactive (Hk).
Then converting back reproduces the hour and minute and negates the day
offset. -/
theorem convertTime_roundTrip_no_month_boundary
    (host : TzHost) (h m : Nat) (A B : String)
    (hh : h < 24) (hm : m < 60)
    (HA : getUtcOffsetMinutes host A (refMinutes host h m) = host.off A)
    (HB : getUtcOffsetMinutes host B
        (refMinutes host (convertTime host h m A B none).hours (convertTime host h m A B none).minutes)
        = host.off B)
    (HD1 : ((partsOfMinutes (refMinutes host h m - host.off A + host.off B)).day : Int)
        - ((partsOfMinutes (refMinutes host h m)).day : Int) = dayShift host h m A B)
    (HD2 : ((partsOfMinutes (refMinutes host (convertTime host h m A B none).hours
            (convertTime host h m A B none).minutes)).day : Int)
        - ((partsOfMinutes (refMinutes host (convertTime host h m A B none).hours
            (convertTime host h m A B none).minutes - host.off B + host.off A)).day : Int)
        = dayShift host h m A B)
    (Hk : (dayShift host h m A B).natAbs ≤ 15) :
    (convertTime host (convertTime host h m A B none).hours
        (convertTime host h m A B none).minutes B A none).hours = h
    ∧ (convertTime host (convertTime host h m A B none).hours
        (convertTime host h m A B none).minutes B A none).minutes = m
    ∧ (convertTime host (convertTime host h m A B none).hours
        (convertTime host h m A B none).minutes B A none).dayOffset
      = -(convertTime host h m A B none).dayOffset := by
  have hrefun : ∀ (x y : Nat), refMinutes host x y
      = 1440 * daysFromCivil host.todayY host.todayM host.todayD
        + 60 * (x : Int) + (y : Int) := fun x y => rfl
  have chours : (convertTime host h m A B none).hours
      = (((refMinutes host h m - getUtcOffsetMinutes host A (refMinutes host h m)
          + host.off B) % 1440).toNat) / 60 % 24 := rfl
  have cminutes : (convertTime host h m A B none).minutes
      = (((refMinutes host h m - getUtcOffsetMinutes host A (refMinutes host h m)
          + host.off B) % 1440).toNat) % 60 := rfl
  rw [HA] at chours cminutes
  obtain ⟨q, hq, hqlt⟩ : ∃ q : Int,
      ((((refMinutes host h m - host.off A + host.off B) % 1440).toNat : Nat) : Int)
        = refMinutes host h m - host.off A + host.off B - 1440 * q
      ∧ (((refMinutes host h m - host.off A + host.off B) % 1440).toNat) < 1440 :=
    ⟨(refMinutes host h m - host.off A + host.off B) / 1440, by omega, by omega⟩
  have hT0' : refMinutes host (convertTime host h m A B none).hours
      (convertTime host h m A B none).minutes
      = 1440 * daysFromCivil host.todayY host.todayM host.todayD
        + ((((refMinutes host h m - host.off A + host.off B) % 1440).toNat : Nat) : Int) := by
    rw [chours, cminutes, hrefun]
    omega
  have bhours : (convertTime host (convertTime host h m A B none).hours
      (convertTime host h m A B none).minutes B A none).hours
      = (((refMinutes host (convertTime host h m A B none).hours
            (convertTime host h m A B none).minutes
          - getUtcOffsetMinutes host B (refMinutes host (convertTime host h m A B none).hours
              (convertTime host h m A B none).minutes)
          + host.off A) % 1440).toNat) / 60 % 24 := rfl
  have bminutes : (convertTime host (convertTime host h m A B none).hours
      (convertTime host h m A B none).minutes B A none).minutes
      = (((refMinutes host (convertTime host h m A B none).hours
            (convertTime host h m A B none).minutes
          - getUtcOffsetMinutes host B (refMinutes host (convertTime host h m A B none).hours
              (convertTime host h m A B none).minutes)
          + host.off A) % 1440).toNat) % 60 := rfl
  rw [HB, hT0'] at bhours bminutes
  rw [hrefun h m] at hq
  have hT00 := hrefun h m
  refine ⟨?_, ?_, ?_⟩
  · rw [bhours]
    omega
  · rw [bminutes]
    omega
  · have e1 : refMinutes host h m - host.off A + host.off A = refMinutes host h m := by
      ring
    have cday : (convertTime host h m A B none).dayOffset
        = (if 15 < ((partsOfMinutes (refMinutes host h m - getUtcOffsetMinutes host A (refMinutes host h m) + host.off B)).day : Int)
                - ((partsOfMinutes (refMinutes host h m - getUtcOffsetMinutes host A (refMinutes host h m) + host.off A)).day : Int)
            then ((partsOfMinutes (refMinutes host h m - getUtcOffsetMinutes host A (refMinutes host h m) + host.off B)).day : Int)
                - ((partsOfMinutes (refMinutes host h m - getUtcOffsetMinutes host A (refMinutes host h m) + host.off A)).day : Int) - 30
            else if ((partsOfMinutes (refMinutes host h m - getUtcOffsetMinutes host A (refMinutes host h m) + host.off B)).day : Int)
                - ((partsOfMinutes (refMinutes host h m - getUtcOffsetMinutes host A (refMinutes host h m) + host.off A)).day : Int) < -15
            then ((partsOfMinutes (refMinutes host h m - getUtcOffsetMinutes host A (refMinutes host h m) + host.off B)).day : Int)
                - ((partsOfMinutes (refMinutes host h m - getUtcOffsetMinutes host A (refMinutes host h m) + host.off A)).day : Int) + 30
            else ((partsOfMinutes (refMinutes host h m - getUtcOffsetMinutes host A (refMinutes host h m) + host.off B)).day : Int)
                - ((partsOfMinutes (refMinutes host h m - getUtcOffsetMinutes host A (refMinutes host h m) + host.off A)).day : Int)) := rfl
    rw [HA, e1, HD1] at cday
    have e2 : refMinutes host (convertTime host h m A B none).hours
          (convertTime host h m A B none).minutes - host.off B + host.off B
        = refMinutes host (convertTime host h m A B none).hours
          (convertTime host h m A B none).minutes := by
      ring
    have bday : (convertTime host (convertTime host h m A B none).hours
        (convertTime host h m A B none).minutes B A none).dayOffset
        = (if 15 < ((partsOfMinutes (refMinutes host (convertTime host h m A B none).hours
                  (convertTime host h m A B none).minutes
                - getUtcOffsetMinutes host B (refMinutes host (convertTime host h m A B none).hours
                    (convertTime host h m A B none).minutes) + host.off A)).day : Int)
                - ((partsOfMinutes (refMinutes host (convertTime host h m A B none).hours
                  (convertTime host h m A B none).minutes
                - getUtcOffsetMinutes host B (refMinutes host (convertTime host h m A B none).hours
                    (convertTime host h m A B none).minutes) + host.off B)).day : Int)
            then ((partsOfMinutes (refMinutes host (convertTime host h m A B none).hours
                  (convertTime host h m A B none).minutes
                - getUtcOffsetMinutes host B (refMinutes host (convertTime host h m A B none).hours
                    (convertTime host h m A B none).minutes) + host.off A)).day : Int)
                - ((partsOfMinutes (refMinutes host (convertTime host h m A B none).hours
                  (convertTime host h m A B none).minutes
                - getUtcOffsetMinutes host B (refMinutes host (convertTime host h m A B none).hours
                    (convertTime host h m A B none).minutes) + host.off B)).day : Int) - 30
            else if ((partsOfMinutes (refMinutes host (convertTime host h m A B none).hours
                  (convertTime host h m A B none).minutes
                - getUtcOffsetMinutes host B (refMinutes host (convertTime host h m A B none).hours
                    (convertTime host h m A B none).minutes) + host.off A)).day : Int)
                - ((partsOfMinutes (refMinutes host (convertTime host h m A B none).hours
                  (convertTime host h m A B none).minutes
                - getUtcOffsetMinutes host B (refMinutes host (convertTime host h m A B none).hours
                    (convertTime host h m A B none).minutes) + host.off B)).day : Int) < -15
            then ((partsOfMinutes (refMinutes host (convertTime host h m A B none).hours
                  (convertTime host h m A B none).minutes
                - getUtcOffsetMinutes host B (refMinutes host (convertTime host h m A B none).hours
                    (convertTime host h m A B none).minutes) + host.off A)).day : Int)
                - ((partsOfMinutes (refMinutes host (convertTime host h m A B none).hours
                  (convertTime host h m A B none).minutes
                - getUtcOffsetMinutes host B (refMinutes host (convertTime host h m A B none).hours
                    (convertTime host h m A B none).minutes) + host.off B)).day : Int) + 30
            else ((partsOfMinutes (refMinutes host (convertTime host h m A B none).hours
                  (convertTime host h m A B none).minutes
                - getUtcOffsetMinutes host B (refMinutes host (convertTime host h m A B none).hours
                    (convertTime host h m A B none).minutes) + host.off A)).day : Int)
                - ((partsOfMinutes (refMinutes host (convertTime host h m A B none).hours
                  (convertTime host h m A B none).minutes
                - getUtcOffsetMinutes host B (refMinutes host (convertTime host h m A B none).hours
                    (convertTime host h m A B none).minutes) + host.off B)).day : Int)) := rfl
    rw [HB, e2] at bday
    have hneg : ((partsOfMinutes (refMinutes host (convertTime host h m A B none).hours
            (convertTime host h m A B none).minutes - host.off B + host.off A)).day : Int)
        - ((partsOfMinutes (refMinutes host (convertTime host h m A B none).hours
            (convertTime host h m A B none).minutes)).day : Int)
        = -dayShift host h m A B := by
      omega
    rw [hneg] at bday
    rw [cday, bday]
    have hk15 : -15 ≤ dayShift host h m A B ∧ dayShift host h m A B ≤ 15 := by
      omega
    split_ifs <;> omega

/-- Witness for C3's amended round trip: 23:30 UTC to Asia/Kolkata
(+05:30) on 2026-06-15 and back. -/
theorem convertTime_roundTrip_no_month_boundary_witness :
    (convertTime hostJun15 (convertTime hostJun15 23 30 "UTC" "Asia/Kolkata" none).hours
        (convertTime hostJun15 23 30 "UTC" "Asia/Kolkata" none).minutes "Asia/Kolkata" "UTC" none).hours = 23
    ∧ (convertTime hostJun15 (convertTime hostJun15 23 30 "UTC" "Asia/Kolkata" none).hours
        (convertTime hostJun15 23 30 "UTC" "Asia/Kolkata" none).minutes "Asia/Kolkata" "UTC" none).minutes = 30
    ∧ (convertTime hostJun15 (convertTime hostJun15 23 30 "UTC" "Asia/Kolkata" none).hours
        (convertTime hostJun15 23 30 "UTC" "Asia/Kolkata" none).minutes "Asia/Kolkata" "UTC" none).dayOffset
      = -(convertTime hostJun15 23 30 "UTC" "Asia/Kolkata" none).dayOffset :=
  convertTime_roundTrip_no_month_boundary hostJun15 23 30 "UTC" "Asia/Kolkata"
    (by decide) (by decide) (by decide) (by decide) (by decide) (by decide) (by decide)
